import Mathlib

/-!
Shallow embedding of the four report-inspection scripts of this repository
(check_full.py, failed_details.py, temp_decode.py, vitest-report-summary.py)
and proofs about their behaviour.

The scripts read a JSON test report from disk with a fixed text encoding,
extract counters / failing assertions, and print summaries.  We embed:
  - JSON values (`Json`), with the Python dynamic operations the scripts use
    (`d[k]` subscripting, `d.get(k)`, truthiness, iteration, `in`, `str()`),
  - Python exceptions (`PyErr`),
  - the byte-level text decoders the scripts select
    (utf-8 strict / utf-8 with errors ignored / utf-8-sig / utf-16-le with
    errors ignored),
  - a JSON text parser standing for `json.loads` (numbers are modelled as
    integers, matching the report data model whose counters are integral;
    floats, NaN/Infinity and lone-surrogate escapes are outside the model),
  - each script as a function from the parsed document (and, composed with
    decoding and parsing, from the raw file bytes) to the list of lines it
    prints, together with the Python exception that aborted it, if any.
Prints that happen before an exception is raised are kept, mirroring the
actual console behaviour of the scripts.
-/

/-- Python exceptions that the scripts can raise.  The specification's
`DecodeError` corresponds to `unicodeDecodeError` / `jsonDecodeError`, and its
`SchemaError` to `keyError` (a required field being absent). -/
inductive PyErr where
  | keyError (key : String)
  | typeError
  | attributeError
  | indexError
  | unicodeDecodeError
  | jsonDecodeError
  | fileNotFoundError
deriving DecidableEq

/-- JSON values as produced by `json.loads`.  Object members keep their
source order; numbers are modelled as integers (the report counters are
integral). -/
inductive Json where
  | null
  | bool (b : Bool)
  | num (n : Int)
  | str (s : String)
  | arr (items : List Json)
  | obj (pairs : List (String × Json))

/-- Lookup of a key in an object's member list.  Python's `dict` keeps the
last value bound to a duplicated key, so the lookup prefers the last
occurrence. -/
def assocLast : List (String × Json) → String → Option Json
  | [], _ => none
  | (k, v) :: rest, key =>
    match assocLast rest key with
    | some r => some r
    | none => if k == key then some v else none

/-- Python `d.get(key)`: `None` when absent; `AttributeError` when the value
is not a dict. -/
def Json.getOpt : Json → String → Except PyErr (Option Json)
  | Json.obj kvs, key => .ok (assocLast kvs key)
  | _, _ => .error PyErr.attributeError

/-- Python `d[key]` with a string key: `KeyError` when absent; `TypeError`
when the value is not a dict. -/
def Json.item : Json → String → Except PyErr Json
  | Json.obj kvs, key =>
    match assocLast kvs key with
    | some v => .ok v
    | none => .error (PyErr.keyError key)
  | _, _ => .error PyErr.typeError

/-- Python truthiness of a JSON value. -/
def Json.truthy : Json → Bool
  | Json.null => false
  | Json.bool b => b
  | Json.num n => n != 0
  | Json.str s => s != ""
  | Json.arr xs => !xs.isEmpty
  | Json.obj kvs => !kvs.isEmpty

/-- Python iteration (`for x in v`): lists yield their items, strings their
characters, dicts their keys; other values raise `TypeError`. -/
def pyIter : Json → Except PyErr (List Json)
  | Json.arr xs => .ok xs
  | Json.str s => .ok (s.data.map (fun c => Json.str (String.mk [c])))
  | Json.obj kvs => .ok (kvs.map (fun kv => Json.str kv.1))
  | _ => .error PyErr.typeError

/-- Whether a JSON value equals (Python `==`) a given string. -/
def isStr (j : Json) (s : String) : Bool :=
  match j with
  | Json.str t => t == s
  | _ => false

/-- Whether an optional JSON value (a `d.get` result) equals a given string. -/
def optIsStr (o : Option Json) (s : String) : Bool :=
  match o with
  | some j => isStr j s
  | none => false

mutual

/-- Python `repr` of a JSON value (used by `str` for values nested inside
containers).  String escaping inside `repr` is not modelled; no script path
the claims mention prints containers. -/
def pyRepr : Json → String
  | Json.null => "None"
  | Json.bool true => "True"
  | Json.bool false => "False"
  | Json.num n => toString n
  | Json.str s => "\x27" ++ s ++ "\x27"
  | Json.arr xs => "[" ++ pyReprItems xs ++ "]"
  | Json.obj kvs => "\x7b" ++ pyReprPairs kvs ++ "\x7d"

/-- Comma-separated `repr`s of list items. -/
def pyReprItems : List Json → String
  | [] => ""
  | [x] => pyRepr x
  | x :: y :: rest => pyRepr x ++ ", " ++ pyReprItems (y :: rest)

/-- Comma-separated `repr`s of dict members. -/
def pyReprPairs : List (String × Json) → String
  | [] => ""
  | [(k, v)] => "\x27" ++ k ++ "\x27: " ++ pyRepr v
  | (k, v) :: p :: rest =>
    "\x27" ++ k ++ "\x27: " ++ pyRepr v ++ ", " ++ pyReprPairs (p :: rest)

end

/-- Python `str()` of a JSON value, as applied by `print` and f-strings. -/
def pyStr (j : Json) : String :=
  match j with
  | Json.str s => s
  | _ => pyRepr j

/-- Python `s.split(chr(10))[0]` (also `s.split(chr(10), 1)[0]`): the first
line of a string. -/
def firstLine (s : String) : String :=
  String.mk (s.data.takeWhile (fun c => c != '\n'))

/-- Does the character list start with the given pattern? -/
def startsWithL : List Char → List Char → Bool
  | [], _ => true
  | _ :: _, [] => false
  | p :: ps, c :: cs => p == c && startsWithL ps cs

/-- Naive substring search on character lists. -/
def subSearch : List Char → List Char → Bool
  | sub, [] => sub.isEmpty
  | sub, c :: cs => startsWithL sub (c :: cs) || subSearch sub cs

/-- Python `sub in s` on strings. -/
def pyInStr (sub s : String) : Bool :=
  subSearch sub.data s.data

/-- Python `sub in v` where `sub` is a string and `v` a JSON value: substring
test on strings, membership on lists, key membership on dicts, `TypeError`
otherwise. -/
def pyInJson (sub : String) (v : Json) : Except PyErr Bool :=
  match v with
  | Json.str s => .ok (pyInStr sub s)
  | Json.arr xs => .ok (xs.any (fun x => isStr x sub))
  | Json.obj kvs => .ok (kvs.any (fun kv => kv.1 == sub))
  | _ => .error PyErr.typeError

/-- Python `pre + v` where `pre` is a string: `TypeError` unless `v` is a
string. -/
def pyAddStr (pre : String) (v : Json) : Except PyErr String :=
  match v with
  | Json.str s => .ok (pre ++ s)
  | _ => .error PyErr.typeError

/-- All elements of a list as strings (`TypeError` on a non-string), as
required by `str.join`. -/
def allStrs : List Json → Except PyErr (List String)
  | [] => .ok []
  | Json.str s :: rest =>
    match allStrs rest with
    | .ok ss => .ok (s :: ss)
    | .error e => .error e
  | _ :: _ => .error PyErr.typeError

/-- Python `chr(10).join(v)`: joins an iterable of strings with newlines;
joining a string joins its characters; `TypeError` otherwise. -/
def joinNewline (v : Json) : Except PyErr String :=
  match v with
  | Json.arr xs =>
    match allStrs xs with
    | .ok ss => .ok (String.intercalate "\n" ss)
    | .error e => .error e
  | Json.str s =>
    .ok (String.intercalate "\n" (s.data.map (fun c => String.mk [c])))
  | _ => .error PyErr.typeError

/-- Is the byte a UTF-8 continuation byte? -/
def isCont (b : Nat) : Bool := 128 ≤ b && b < 192

/-- Decode one UTF-8 scalar value from the front of a byte list, rejecting
overlong forms, surrogates and values above 0x10FFFF exactly as Python's
strict utf-8 codec does.  Returns the code point and the remaining bytes, or
`none` when the front is ill-formed. -/
def utf8Step : List Nat → Option (Nat × List Nat)
  | [] => none
  | b :: rest =>
    if b < 128 then some (b, rest)
    else if b < 194 then none
    else if b < 224 then
      match rest with
      | b2 :: r2 =>
        if isCont b2 then some ((b - 192) * 64 + (b2 - 128), r2) else none
      | [] => none
    else if b < 240 then
      match rest with
      | b2 :: b3 :: r3 =>
        let lo := if b == 224 then 160 else 128
        let hi := if b == 237 then 159 else 191
        if lo ≤ b2 && b2 ≤ hi && isCont b3 then
          some ((b - 224) * 4096 + (b2 - 128) * 64 + (b3 - 128), r3)
        else none
      | _ => none
    else if b < 245 then
      match rest with
      | b2 :: b3 :: b4 :: r4 =>
        let lo := if b == 240 then 144 else 128
        let hi := if b == 244 then 143 else 191
        if lo ≤ b2 && b2 ≤ hi && isCont b3 && isCont b4 then
          some ((b - 240) * 262144 + (b2 - 128) * 4096 + (b3 - 128) * 64
                  + (b4 - 128), r4)
        else none
      | _ => none
    else none

/-- Strict UTF-8 decoding (fuelled; `utf8Step` consumes at least one byte per
call, so fuel equal to the byte count suffices). -/
def utf8DecodeAux : Nat → List Nat → Option (List Char)
  | _, [] => some []
  | 0, _ :: _ => none
  | fuel + 1, bs =>
    match utf8Step bs with
    | some (cp, rest) =>
      match utf8DecodeAux fuel rest with
      | some cs => some (Char.ofNat cp :: cs)
      | none => none
    | none => none

/-- Python `bytes.decode` with `encoding` utf-8 (strict): `none` is a
`UnicodeDecodeError`. -/
def utf8Decode? (bs : List Nat) : Option (List Char) :=
  utf8DecodeAux bs.length bs

/-- UTF-8 decoding with `errors` set to ignore: an ill-formed byte is
dropped and decoding resumes at the next byte, as Python's ignore error
handler does. -/
def utf8DecodeIgnoreAux : Nat → List Nat → List Char
  | _, [] => []
  | 0, _ :: _ => []
  | fuel + 1, b :: rest =>
    match utf8Step (b :: rest) with
    | some (cp, r) => Char.ofNat cp :: utf8DecodeIgnoreAux fuel r
    | none => utf8DecodeIgnoreAux fuel rest

/-- Python `bytes.decode` with utf-8 and `errors` ignore: never fails. -/
def utf8DecodeIgnore (bs : List Nat) : List Char :=
  utf8DecodeIgnoreAux bs.length bs

/-- Python `bytes.decode` with utf-8-sig (strict): a leading byte-order mark
EF BB BF is stripped, then strict UTF-8 decoding. -/
def utf8SigDecode? (bs : List Nat) : Option (List Char) :=
  match bs with
  | 239 :: 187 :: 191 :: rest => utf8Decode? rest
  | _ => utf8Decode? bs

/-- Decode one scalar from the front of a UTF-16-LE byte list (bytes are
0..255): a basic-plane unit, or a surrogate pair; `none` on a lone
surrogate or a truncated pair. -/
def utf16leStep : List Nat → Option (Nat × List Nat)
  | b1 :: b2 :: rest =>
    let u := b1 + 256 * b2
    if u < 55296 || 57344 ≤ u then some (u, rest)
    else if u < 56320 then
      match rest with
      | b3 :: b4 :: r2 =>
        let v := b3 + 256 * b4
        if 56320 ≤ v && v < 57344 then
          some (65536 + (u - 55296) * 1024 + (v - 56320), r2)
        else none
      | _ => none
    else none
  | _ => none

/-- UTF-16-LE decoding with `errors` ignore: a bad unit (two bytes) is
skipped, and a trailing odd byte is dropped, as Python's ignore handler
does. -/
def utf16leDecodeIgnoreAux : Nat → List Nat → List Char
  | _, [] => []
  | _, [_] => []
  | 0, _ => []
  | fuel + 1, b1 :: b2 :: rest =>
    match utf16leStep (b1 :: b2 :: rest) with
    | some (cp, r) => Char.ofNat cp :: utf16leDecodeIgnoreAux fuel r
    | none => utf16leDecodeIgnoreAux fuel rest

/-- Python `bytes.decode` with utf-16-le and `errors` ignore: never fails. -/
def utf16leDecodeIgnore (bs : List Nat) : List Char :=
  utf16leDecodeIgnoreAux bs.length bs

/-- UTF-8 encoding of one character (helper for building concrete byte-level
inputs). -/
def charUtf8 (c : Char) : List Nat :=
  let n := c.toNat
  if n < 128 then [n]
  else if n < 2048 then [192 + n / 64, 128 + n % 64]
  else if n < 65536 then [224 + n / 4096, 128 + n / 64 % 64, 128 + n % 64]
  else [240 + n / 262144, 128 + n / 4096 % 64, 128 + n / 64 % 64,
        128 + n % 64]

/-- UTF-8 encoding of a string. -/
def strToUtf8 (s : String) : List Nat :=
  (s.data.map charUtf8).flatten

/-- JSON whitespace. -/
def jsonWs (c : Char) : Bool :=
  c == ' ' || c == '\t' || c == '\n' || c == '\r'

/-- Drop leading JSON whitespace. -/
def skipWs (cs : List Char) : List Char :=
  cs.dropWhile jsonWs

/-- Value of a hexadecimal digit. -/
def hexDigit? (c : Char) : Option Nat :=
  if '0' ≤ c && c ≤ '9' then some (c.toNat - 48)
  else if 'a' ≤ c && c ≤ 'f' then some (c.toNat - 87)
  else if 'A' ≤ c && c ≤ 'F' then some (c.toNat - 55)
  else none

/-- Parse the body of a JSON string after the opening quote, handling the
escape sequences `json.loads` accepts.  Control characters must be escaped;
`u` escapes combine surrogate pairs (Python additionally accepts lone
surrogates, which a Lean `Char` cannot carry; such documents are outside the
model). -/
def parseStrBody : Nat → List Char → Option (List Char × List Char)
  | 0, _ => none
  | _ + 1, [] => none
  | fuel + 1, c :: cs =>
    if c == '"' then some ([], cs)
    else if c == '\\' then
      match cs with
      | [] => none
      | e :: cs2 =>
        if e == 'u' then
          match cs2 with
          | h1 :: h2 :: h3 :: h4 :: cs3 =>
            match hexDigit? h1, hexDigit? h2, hexDigit? h3, hexDigit? h4 with
            | some d1, some d2, some d3, some d4 =>
              let n := ((d1 * 16 + d2) * 16 + d3) * 16 + d4
              if n < 55296 || 57344 ≤ n then
                match parseStrBody fuel cs3 with
                | some (tail, rest) => some (Char.ofNat n :: tail, rest)
                | none => none
              else if n < 56320 then
                match cs3 with
                | '\\' :: 'u' :: g1 :: g2 :: g3 :: g4 :: cs4 =>
                  match hexDigit? g1, hexDigit? g2, hexDigit? g3,
                      hexDigit? g4 with
                  | some e1, some e2, some e3, some e4 =>
                    let m := ((e1 * 16 + e2) * 16 + e3) * 16 + e4
                    if 56320 ≤ m && m < 57344 then
                      match parseStrBody fuel cs4 with
                      | some (tail, rest) =>
                        some (Char.ofNat (65536 + (n - 55296) * 1024
                                + (m - 56320)) :: tail, rest)
                      | none => none
                    else none
                  | _, _, _, _ => none
                | _ => none
              else none
            | _, _, _, _ => none
          | _ => none
        else
          let dec : Option Char :=
            if e == '"' then some '"'
            else if e == '\\' then some '\\'
            else if e == '/' then some '/'
            else if e == 'b' then some (Char.ofNat 8)
            else if e == 'f' then some (Char.ofNat 12)
            else if e == 'n' then some '\n'
            else if e == 'r' then some '\r'
            else if e == 't' then some '\t'
            else none
          match dec with
          | some d =>
            match parseStrBody fuel cs2 with
            | some (tail, rest) => some (d :: tail, rest)
            | none => none
          | none => none
    else if c.toNat < 32 then none
    else
      match parseStrBody fuel cs with
      | some (tail, rest) => some (c :: tail, rest)
      | none => none

/-- Is the character a decimal digit? -/
def isDigitC (c : Char) : Bool := '0' ≤ c && c ≤ '9'

/-- Numeric value of a digit list. -/
def digitsToNat : List Char → Nat → Nat
  | [], acc => acc
  | c :: cs, acc => digitsToNat cs (acc * 10 + (c.toNat - 48))

/-- Parse a JSON integer (an optional minus sign, then digits without a
leading zero).  A following fraction or exponent means a float, which is
outside the integer data model, so parsing rejects it. -/
def parseNum : List Char → Option (Json × List Char)
  | cs =>
    let signed := startsWithL ['-'] cs
    let cs1 := if signed then cs.drop 1 else cs
    match cs1 with
    | [] => none
    | c :: rest =>
      if c == '0' then
        match rest with
        | d :: _ =>
          if isDigitC d || d == '.' || d == 'e' || d == 'E' then none
          else some (Json.num (if signed then -0 else 0), rest)
        | [] => some (Json.num 0, rest)
      else if isDigitC c then
        let digs := (c :: rest).takeWhile isDigitC
        let rest2 := (c :: rest).dropWhile isDigitC
        match rest2 with
        | d :: _ =>
          if d == '.' || d == 'e' || d == 'E' then none
          else
            let n : Int := Int.ofNat (digitsToNat digs 0)
            some (Json.num (if signed then -n else n), rest2)
        | [] =>
          let n : Int := Int.ofNat (digitsToNat digs 0)
          some (Json.num (if signed then -n else n), rest2)
      else none

mutual

/-- Parse one JSON value (fuelled recursive descent; leading whitespace is
skipped). -/
def parseVal : Nat → List Char → Option (Json × List Char)
  | 0, _ => none
  | fuel + 1, cs =>
    match skipWs cs with
    | [] => none
    | c :: rest =>
      if c == '\x7b' then
        match skipWs rest with
        | '\x7d' :: rest2 => some (Json.obj [], rest2)
        | cs2 =>
          match parseMembers fuel cs2 with
          | some (pairs, rest2) => some (Json.obj pairs, rest2)
          | none => none
      else if c == '[' then
        match skipWs rest with
        | ']' :: rest2 => some (Json.arr [], rest2)
        | cs2 =>
          match parseItems fuel cs2 with
          | some (items, rest2) => some (Json.arr items, rest2)
          | none => none
      else if c == '"' then
        match parseStrBody (rest.length + 1) rest with
        | some (body, rest2) => some (Json.str (String.mk body), rest2)
        | none => none
      else if c == 't' then
        if startsWithL ['r', 'u', 'e'] rest then
          some (Json.bool true, rest.drop 3)
        else none
      else if c == 'f' then
        if startsWithL ['a', 'l', 's', 'e'] rest then
          some (Json.bool false, rest.drop 4)
        else none
      else if c == 'n' then
        if startsWithL ['u', 'l', 'l'] rest then
          some (Json.null, rest.drop 3)
        else none
      else if c == '-' || isDigitC c then parseNum (c :: rest)
      else none

/-- Parse the members of a JSON object, positioned at the first key
(whitespace already skipped), up to and including the closing brace. -/
def parseMembers : Nat → List Char → Option (List (String × Json) × List Char)
  | 0, _ => none
  | fuel + 1, cs =>
    match cs with
    | '"' :: rest =>
      match parseStrBody (rest.length + 1) rest with
      | some (key, rest2) =>
        match skipWs rest2 with
        | ':' :: rest3 =>
          match parseVal fuel rest3 with
          | some (v, rest4) =>
            match skipWs rest4 with
            | ',' :: rest5 =>
              match parseMembers fuel (skipWs rest5) with
              | some (pairs, rest6) =>
                some ((String.mk key, v) :: pairs, rest6)
              | none => none
            | '\x7d' :: rest5 => some ([(String.mk key, v)], rest5)
            | _ => none
          | none => none
        | _ => none
      | none => none
    | _ => none

/-- Parse the items of a JSON array, positioned at the first item, up to and
including the closing bracket. -/
def parseItems : Nat → List Char → Option (List Json × List Char)
  | 0, _ => none
  | fuel + 1, cs =>
    match parseVal fuel cs with
    | some (v, rest) =>
      match skipWs rest with
      | ',' :: rest2 =>
        match parseItems fuel rest2 with
        | some (items, rest3) => some (v :: items, rest3)
        | none => none
      | ']' :: rest2 => some ([v], rest2)
      | _ => none
    | none => none

end

/-- Python `json.loads`: parse a complete JSON document; any syntax error is
a `JSONDecodeError`. -/
def jsonLoads (s : String) : Except PyErr Json :=
  match parseVal (s.data.length + 16) s.data with
  | some (v, rest) =>
    if (skipWs rest).isEmpty then .ok v else .error PyErr.jsonDecodeError
  | none => .error PyErr.jsonDecodeError

/-- The observable outcome of running a script body: the lines printed (in
order, one entry per `print` call), and the Python exception that aborted
the run, if any.  Lines printed before an exception are kept. -/
abbrev POut := List String × Option PyErr

/-- Sequence a fallible Python expression into a printing computation: an
exception aborts with nothing further printed. -/
def pbind (x : Except PyErr α) (k : α → POut) : POut :=
  match x with
  | .error e => ([], some e)
  | .ok a => k a

/-- Print some lines, then continue. -/
def pout (ls : List String) (rest : POut) : POut :=
  (ls ++ rest.1, rest.2)

/-- A script body that prints nothing and raises nothing. -/
def pdone : POut := ([], none)

/-- Run one printing computation, then (unless it raised) another. -/
def pthen (x y : POut) : POut :=
  match x.2 with
  | some _ => x
  | none => (x.1 ++ y.1, y.2)

/-- The comprehension of check_full.py and failed_details.py:
`[a for a in xs if a.get(chr(115)...) == failed]` — the assertions whose
status is the string failed. -/
def filterFailed : List Json → Except PyErr (List Json)
  | [] => .ok []
  | a :: rest =>
    match a.getOpt "status" with
    | .error e => .error e
    | .ok st =>
      match filterFailed rest with
      | .error e => .error e
      | .ok tail => .ok (if optIsStr st "failed" then a :: tail else tail)

/-- The per-suite loop of check_full.py: for each suite whose status is
failed, print `name :: count-of-failed-assertions`. -/
def checkSuiteLines : List Json → POut
  | [] => pdone
  | s :: rest =>
    pbind (s.getOpt "status") fun st =>
    if optIsStr st "failed" then
      pbind (s.getOpt "assertionResults") fun arsOpt =>
      pbind (pyIter (arsOpt.getD (Json.arr []))) fun xs =>
      pbind (filterFailed xs) fun fails =>
      pbind (s.item "name") fun name =>
      pout [pyStr name ++ " :: " ++ toString fails.length]
        (checkSuiteLines rest)
    else checkSuiteLines rest

/-- check_full.py after `json.loads`: print the totals line built from four
top-level counters, then the per-suite failure counts. -/
def checkFullLogic (j : Json) : POut :=
  pbind (j.item "numTotalTests") fun t =>
  pbind (j.item "numPassedTests") fun p =>
  pbind (j.item "numFailedTests") fun f =>
  pbind (j.item "numFailedTestSuites") fun fs =>
  pout ["total=" ++ pyStr t ++ " passed=" ++ pyStr p ++ " failed="
          ++ pyStr f ++ " failedSuites=" ++ pyStr fs]
    (pbind (j.item "testResults") fun trs =>
     pbind (pyIter trs) fun suites =>
     checkSuiteLines suites)

/-- failed_details.py: `(a.get(failureMessages) or [empty])[0]` then the
first line of it.  A falsy value (absent key, null, an empty list or empty
string, zero) falls back to a one-element list holding the empty string. -/
def firstFailureMsg (a : Json) : Except PyErr String :=
  match a.getOpt "failureMessages" with
  | .error e => .error e
  | .ok mOpt =>
    let v : Json :=
      match mOpt with
      | none => Json.arr [Json.str ""]
      | some w => if w.truthy then w else Json.arr [Json.str ""]
    match v with
    | Json.arr [] => .error PyErr.indexError
    | Json.arr (Json.str s :: _) => .ok (firstLine s)
    | Json.arr (_ :: _) => .error PyErr.attributeError
    | Json.str s =>
      match s.data with
      | [] => .error PyErr.indexError
      | c :: _ => .ok (firstLine (String.mk [c]))
    | Json.obj _ => .error (PyErr.keyError "0")
    | _ => .error PyErr.typeError

/-- The inner loop of failed_details.py: for each failed assertion print
`- fullName` and then the (indented) first line of its first failure
message; afterwards continue with the given computation. -/
def failedAssertionLines : List Json → POut → POut
  | [], k => k
  | a :: rest, k =>
    pbind (firstFailureMsg a) fun msg =>
    pbind (a.item "fullName") fun fn =>
    pout ["- " ++ pyStr fn, "   " ++ msg] (failedAssertionLines rest k)

/-- The suite loop of failed_details.py: suites with at least one failed
assertion print a blank-prefixed header line with the suite name, then their
failed assertions. -/
def failedDetailsLoop : List Json → POut
  | [] => pdone
  | suite :: rest =>
    pbind (suite.getOpt "assertionResults") fun arsOpt =>
    pbind (pyIter (arsOpt.getD (Json.arr []))) fun xs =>
    pbind (filterFailed xs) fun fails =>
    if fails.isEmpty then failedDetailsLoop rest
    else
      pbind (suite.item "name") fun name =>
      pbind (pyAddStr "\n" name) fun header =>
      pout [header] (failedAssertionLines fails (failedDetailsLoop rest))

/-- failed_details.py after `json.loads`. -/
def failedDetailsLogic (j : Json) : POut :=
  pbind (j.item "testResults") fun trs =>
  pbind (pyIter trs) fun suites =>
  failedDetailsLoop suites

/-- temp_decode.py after `json.loads`: print the numFailedTests counter. -/
def tempDecodeLogic (j : Json) : POut :=
  pbind (j.item "numFailedTests") fun f =>
  pout [pyStr f] pdone

/-- A record appended to the `failures` list of vitest-report-summary.py:
the enclosing suite's name, the assertion's fullName (both JSON values, as
Python stores them), and the joined failure messages. -/
structure VFailure where
  suite : Json
  fullName : Json
  message : String

/-- The inner assertion loop of vitest-report-summary.py: collect a
`VFailure` for every assertion whose status (read by subscript, so its
absence is a KeyError) is failed. -/
def collectAssertionFailures (suiteName : Json) :
    List Json → Except PyErr (List VFailure)
  | [] => .ok []
  | a :: rest =>
    match a.item "status" with
    | .error e => .error e
    | .ok st =>
      if isStr st "failed" then
        match a.getOpt "failureMessages" with
        | .error e => .error e
        | .ok msOpt =>
          match joinNewline (msOpt.getD (Json.arr [])) with
          | .error e => .error e
          | .ok msg =>
            match a.item "fullName" with
            | .error e => .error e
            | .ok fn =>
              match collectAssertionFailures suiteName rest with
              | .error e => .error e
              | .ok tail =>
                .ok ({ suite := suiteName, fullName := fn,
                       message := msg } :: tail)
      else collectAssertionFailures suiteName rest

/-- The suite loop of vitest-report-summary.py that builds `failures`:
`suite[assertionResults]` is read by subscript, so its absence is a
KeyError. -/
def collectFailures : List Json → Except PyErr (List VFailure)
  | [] => .ok []
  | suite :: rest =>
    match suite.item "name" with
    | .error e => .error e
    | .ok name =>
      match suite.item "assertionResults" with
      | .error e => .error e
      | .ok ars =>
        match pyIter ars with
        | .error e => .error e
        | .ok xs =>
          match collectAssertionFailures name xs with
          | .error e => .error e
          | .ok fs =>
            match collectFailures rest with
            | .error e => .error e
            | .ok tail => .ok (fs ++ tail)

/-- The E2E FILE STATUS loop of vitest-report-summary.py: scan the suites in
order and print name and status of the first one whose name contains the
e2e substring, then break. -/
def vitestE2eLoop : List Json → POut
  | [] => pdone
  | suite :: rest =>
    pbind (suite.item "name") fun name =>
    pbind (pyInJson "e2e-quality-orchestration.test.ts" name) fun hit =>
    if hit then
      pbind (suite.item "status") fun st =>
      pout ["   " ++ pyStr name ++ " " ++ pyStr st] pdone
    else vitestE2eLoop rest

/-- The FAILURES loop of vitest-report-summary.py: one line per collected
failure, showing the first line of its message, or `No message` when the
message is empty (falsy). -/
def vitestFailuresLines : List VFailure → POut
  | [] => pdone
  | f :: rest =>
    let fl := if f.message == "" then "No message" else firstLine f.message
    pout ["- " ++ pyStr f.fullName ++ ": " ++ fl] (vitestFailuresLines rest)

/-- vitest-report-summary.py after `json.loads`: two totals lines, the
recomputed FAILURE COUNT, the E2E FILE STATUS section, and the FAILURES
list. -/
def vitestSummaryLogic (data : Json) : POut :=
  pbind (data.item "numTotalTestSuites") fun a =>
  pbind (data.item "numPassedTestSuites") fun b =>
  pbind (data.item "numFailedTestSuites") fun c =>
  pbind (data.item "numPendingTestSuites") fun d =>
  pout ["TOTAL SUITES " ++ pyStr a ++ " PASS " ++ pyStr b ++ " FAIL "
          ++ pyStr c ++ " SKIPPED " ++ pyStr d]
    (pbind (data.item "numTotalTests") fun a2 =>
     pbind (data.item "numPassedTests") fun b2 =>
     pbind (data.item "numFailedTests") fun c2 =>
     pbind (data.item "numPendingTests") fun d2 =>
     pout ["TOTAL TESTS " ++ pyStr a2 ++ " PASS " ++ pyStr b2 ++ " FAIL "
             ++ pyStr c2 ++ " SKIPPED " ++ pyStr d2]
       (pbind (data.getOpt "testResults") fun trsOpt =>
        pbind (pyIter (trsOpt.getD (Json.arr []))) fun suites =>
        pbind (collectFailures suites) fun failures =>
        pout ["FAILURE COUNT " ++ toString failures.length]
          (pout ["E2E FILE STATUS:"]
            (pthen (vitestE2eLoop suites)
              (pout ["\nFAILURES:"] (vitestFailuresLines failures))))))

/-- check_full.py from the raw file bytes: decode as utf-8 ignoring
ill-formed bytes (never fails), then `json.loads`, then the script body. -/
def checkFullCore (bs : List Nat) : POut :=
  match jsonLoads (String.mk (utf8DecodeIgnore bs)) with
  | .error e => ([], some e)
  | .ok j => checkFullLogic j

/-- failed_details.py from the raw file bytes (utf-8, errors ignored). -/
def failedDetailsCore (bs : List Nat) : POut :=
  match jsonLoads (String.mk (utf8DecodeIgnore bs)) with
  | .error e => ([], some e)
  | .ok j => failedDetailsLogic j

/-- temp_decode.py from the raw file bytes (utf-16-le, errors ignored). -/
def tempDecodeCore (bs : List Nat) : POut :=
  match jsonLoads (String.mk (utf16leDecodeIgnore bs)) with
  | .error e => ([], some e)
  | .ok j => tempDecodeLogic j

/-- vitest-report-summary.py from the raw file bytes: strict utf-8-sig
decoding, whose failure is a UnicodeDecodeError. -/
def vitestSummaryCore (bs : List Nat) : POut :=
  match utf8SigDecode? bs with
  | none => ([], some PyErr.unicodeDecodeError)
  | some cs =>
    match jsonLoads (String.mk cs) with
    | .error e => ([], some e)
    | .ok j => vitestSummaryLogic j

/-- An externally visible effect of a script run. -/
inductive Effect where
  | fsRead (path : String)
  | fsWrite (path : String) (contents : List Nat)
  | out (line : String)
deriving DecidableEq

/-- The world a script runs in: the file system, the process environment and
a clock.  The scripts consult none of it except the byte content of their
input file. -/
structure World where
  files : String → Option (List Nat)
  env : String → Option String
  time : Nat

/-- Run a script: read the input file (FileNotFoundError when absent), then
run the body on its bytes; the effect trace records the read and every
printed line. -/
def runOn (path : String) (core : List Nat → POut) (w : World) :
    List Effect × Option PyErr :=
  match w.files path with
  | none => ([], some PyErr.fileNotFoundError)
  | some bs =>
    (Effect.fsRead path :: (core bs).1.map Effect.out, (core bs).2)

/-- A full run of check_full.py (input path `vitest-results.json`). -/
def runCheckFull (w : World) : List Effect × Option PyErr :=
  runOn "vitest-results.json" checkFullCore w

/-- A full run of failed_details.py. -/
def runFailedDetails (w : World) : List Effect × Option PyErr :=
  runOn "vitest-results.json" failedDetailsCore w

/-- A full run of temp_decode.py. -/
def runTempDecode (w : World) : List Effect × Option PyErr :=
  runOn "vitest-results.json" tempDecodeCore w

/-- A full run of vitest-report-summary.py (input path
`vitest-results-clean.json`). -/
def runVitestSummary (w : World) : List Effect × Option PyErr :=
  runOn "vitest-results-clean.json" vitestSummaryCore w

/-- An assertion record of a well-formed report: fullName, status, and the
recorded failure messages (`none` when the key is absent — the data model
only guarantees the key for failed assertions). -/
structure Assertion where
  fullName : String
  status : String
  failureMessages : Option (List String)
deriving DecidableEq

/-- A suite record of a well-formed report. -/
structure Suite where
  name : String
  status : String
  assertionResults : List Assertion
deriving DecidableEq

/-- A well-formed report: the eight top-level counters and the suites. -/
structure Report where
  numTotalTests : Int
  numPassedTests : Int
  numFailedTests : Int
  numTotalTestSuites : Int
  numPassedTestSuites : Int
  numFailedTestSuites : Int
  numPendingTestSuites : Int
  numPendingTests : Int
  testResults : List Suite

/-- The JSON document of an assertion record. -/
def Assertion.toJson (a : Assertion) : Json :=
  Json.obj ([("fullName", Json.str a.fullName),
             ("status", Json.str a.status)] ++
    (match a.failureMessages with
     | none => []
     | some ms => [("failureMessages", Json.arr (ms.map Json.str))]))

/-- The JSON document of a suite record. -/
def Suite.toJson (s : Suite) : Json :=
  Json.obj [("name", Json.str s.name),
            ("status", Json.str s.status),
            ("assertionResults",
             Json.arr (s.assertionResults.map Assertion.toJson))]

/-- The JSON document of a well-formed report. -/
def Report.toJson (r : Report) : Json :=
  Json.obj [("numTotalTests", Json.num r.numTotalTests),
            ("numPassedTests", Json.num r.numPassedTests),
            ("numFailedTests", Json.num r.numFailedTests),
            ("numTotalTestSuites", Json.num r.numTotalTestSuites),
            ("numPassedTestSuites", Json.num r.numPassedTestSuites),
            ("numFailedTestSuites", Json.num r.numFailedTestSuites),
            ("numPendingTestSuites", Json.num r.numPendingTestSuites),
            ("numPendingTests", Json.num r.numPendingTests),
            ("testResults", Json.arr (r.testResults.map Suite.toJson))]

/-- The failed assertions of a suite (specification side: the assertions
whose status is failed). -/
def failedOf (s : Suite) : List Assertion :=
  s.assertionResults.filter (fun a => a.status == "failed")

/-- Specification side: the sum, over all suites, of the number of
assertions with failed status (the quantity the FAILURE COUNT of
vitest-report-summary.py must equal). -/
def sumFailedAssertions : List Suite → Nat
  | [] => 0
  | s :: rest => (failedOf s).length + sumFailedAssertions rest

/-- Specification side: the first line of an assertion's first recorded
failure message, the empty string when it has none. -/
def specFirstMsg (a : Assertion) : String :=
  match a.failureMessages with
  | some (m :: _) => firstLine m
  | _ => ""

/-- Specification side: an assertion's failure messages joined with
newlines (empty when absent). -/
def specJoinedMsg (a : Assertion) : String :=
  match a.failureMessages with
  | some ms => String.intercalate "\n" ms
  | none => ""

/-- Specification side, following the spec's words for the failure-details
listing: for each suite containing at least one failed assertion, the suite
name header, then for each failed assertion its full name and the first
line of its first recorded failure message (empty string if none). -/
def assertionDetailLines : List Assertion → List String
  | [] => []
  | a :: rest =>
    ("- " ++ a.fullName) :: ("   " ++ specFirstMsg a)
      :: assertionDetailLines rest

/-- Specification side: the failure-details lines of a suite list. -/
def detailsSpecLines : List Suite → List String
  | [] => []
  | s :: rest =>
    (if failedOf s = [] then []
     else ("\n" ++ s.name) :: assertionDetailLines (failedOf s))
      ++ detailsSpecLines rest

/-- The failure records vitest-report-summary.py collects from a
well-formed report's suites. -/
def specVFailures : List Suite → List VFailure
  | [] => []
  | s :: rest =>
    (failedOf s).map (fun a =>
      { suite := Json.str s.name, fullName := Json.str a.fullName,
        message := specJoinedMsg a })
      ++ specVFailures rest

/-- The per-suite lines of check_full.py on a well-formed report. -/
def checkSuitesSpec : List Suite → List String
  | [] => []
  | s :: rest =>
    (if s.status == "failed" then
       [s.name ++ " :: " ++ toString (failedOf s).length]
     else [])
      ++ checkSuitesSpec rest

/-- The totals line check_full.py prints for a well-formed report. -/
def checkTotalsLine (r : Report) : String :=
  "total=" ++ toString r.numTotalTests
    ++ " passed=" ++ toString r.numPassedTests
    ++ " failed=" ++ toString r.numFailedTests
    ++ " failedSuites=" ++ toString r.numFailedTestSuites

/-- The first TOTAL line vitest-report-summary.py prints. -/
def vitestTotals1 (r : Report) : String :=
  "TOTAL SUITES " ++ toString r.numTotalTestSuites
    ++ " PASS " ++ toString r.numPassedTestSuites
    ++ " FAIL " ++ toString r.numFailedTestSuites
    ++ " SKIPPED " ++ toString r.numPendingTestSuites

/-- The second TOTAL line vitest-report-summary.py prints. -/
def vitestTotals2 (r : Report) : String :=
  "TOTAL TESTS " ++ toString r.numTotalTests
    ++ " PASS " ++ toString r.numPassedTests
    ++ " FAIL " ++ toString r.numFailedTests
    ++ " SKIPPED " ++ toString r.numPendingTests

/-- The E2E FILE STATUS section for a well-formed report: the name and
status of the first suite whose name contains the e2e substring, nothing
when no suite name contains it. -/
def e2eSpecLines (ss : List Suite) : List String :=
  match ss.find? (fun s =>
      pyInStr "e2e-quality-orchestration.test.ts" s.name) with
  | some s => ["   " ++ s.name ++ " " ++ s.status]
  | none => []

/-- The FAILURES section for a well-formed report. -/
def failuresSpecLines (ss : List Suite) : List String :=
  (specVFailures ss).map (fun f =>
    "- " ++ pyStr f.fullName ++ ": "
      ++ (if f.message == "" then "No message" else firstLine f.message))

/-- Everything vitest-report-summary.py prints for a well-formed report. -/
def vitestSpecLines (r : Report) : List String :=
  [vitestTotals1 r, vitestTotals2 r,
   "FAILURE COUNT " ++ toString (specVFailures r.testResults).length,
   "E2E FILE STATUS:"]
    ++ e2eSpecLines r.testResults
    ++ ["\nFAILURES:"] ++ failuresSpecLines r.testResults

/-- Is an effect something other than a file-system write?  (Reads of the
input and printed lines are the only benign effects.) -/
def effectBenign : Effect → Bool
  | Effect.fsWrite _ _ => false
  | _ => true

/-- A well-formed JSON document (as text) with the counters check_full.py
prints and an empty suite list. -/
def c1JsonText : String :=
  "\x7b\"numTotalTests\": 1, \"numPassedTests\": 1, \"numFailedTests\": 0, \"numFailedTestSuites\": 0, \"testResults\": []\x7d"

/-- File bytes that are NOT valid UTF-8 (they start with a 0xFF byte) but
whose ignore-mode decoding is the well-formed document `c1JsonText`. -/
def c1Bytes : List Nat := 255 :: strToUtf8 c1JsonText

/-- A suite record that lacks the assertionResults field entirely. -/
def noArsSuite : Json :=
  Json.obj [("name", Json.str "suite-a"), ("status", Json.str "failed")]

/-- A report whose only suite lacks assertionResults (input for
failed_details.py). -/
def c3DetailsDoc : Json := Json.obj [("testResults", Json.arr [noArsSuite])]

/-- A report whose only suite lacks assertionResults, with the counters
check_full.py reads. -/
def c3CheckDoc : Json :=
  Json.obj [("numTotalTests", Json.num 2), ("numPassedTests", Json.num 1),
            ("numFailedTests", Json.num 1),
            ("numFailedTestSuites", Json.num 1),
            ("testResults", Json.arr [noArsSuite])]

/-- A report whose only suite lacks assertionResults, with the counters
vitest-report-summary.py reads. -/
def c3VitestDoc : Json :=
  Json.obj [("numTotalTestSuites", Json.num 1),
            ("numPassedTestSuites", Json.num 0),
            ("numFailedTestSuites", Json.num 1),
            ("numPendingTestSuites", Json.num 0),
            ("numTotalTests", Json.num 2), ("numPassedTests", Json.num 1),
            ("numFailedTests", Json.num 1), ("numPendingTests", Json.num 0),
            ("testResults", Json.arr [noArsSuite])]

/-- The spec's named-suite-lookup example: a report with one suite named
`a/b/e2e-quality-orchestration.test.ts` with status passed. -/
def e2eSampleReport : Report :=
  { numTotalTests := 0, numPassedTests := 0, numFailedTests := 0,
    numTotalTestSuites := 1, numPassedTestSuites := 1,
    numFailedTestSuites := 0, numPendingTestSuites := 0,
    numPendingTests := 0,
    testResults := [{ name := "a/b/e2e-quality-orchestration.test.ts",
                      status := "passed", assertionResults := [] }] }

/-- A report with numTotalTests 3 and numFailedTests 1 (and no suites),
used to inspect the totals lines the scripts print. -/
def c6Report : Report :=
  { numTotalTests := 3, numPassedTests := 2, numFailedTests := 1,
    numTotalTestSuites := 1, numPassedTestSuites := 0,
    numFailedTestSuites := 1, numPendingTestSuites := 0,
    numPendingTests := 0, testResults := [] }

/-- Modelled from the spec: the scripts never re-serialize the collected
failure list, so the round-trip the spec describes (re-serializing the
extracted failure list and reloading it) is modelled at the level of
structured JSON documents.  This is the JSON document of one failure
record, with exactly the keys vitest-report-summary.py stores. -/
def serializeFailure (f : VFailure) : Json :=
  Json.obj [("suite", f.suite), ("fullName", f.fullName),
            ("message", Json.str f.message)]

/-- Modelled from the spec: the JSON document of the whole extracted
failure list. -/
def serializeFailureList (fs : List VFailure) : Json :=
  Json.arr (fs.map serializeFailure)

/-- Modelled from the spec: reload one failure record from a JSON document
(the three stored fields, the message being a string). -/
def readFailure (j : Json) : Option VFailure :=
  match j with
  | Json.obj kvs =>
    match assocLast kvs "suite", assocLast kvs "fullName",
        assocLast kvs "message" with
    | some s, some fn, some (Json.str msg) =>
      some { suite := s, fullName := fn, message := msg }
    | _, _, _ => none
  | _ => none

/-- Reload a list of failure records. -/
def readFailureAux : List Json → Option (List VFailure)
  | [] => some []
  | x :: rest =>
    match readFailure x, readFailureAux rest with
    | some f, some fs => some (f :: fs)
    | _, _ => none

/-- Modelled from the spec: reload the whole failure list from a JSON
document. -/
def readFailureList (j : Json) : Option (List VFailure) :=
  match j with
  | Json.arr xs => readFailureAux xs
  | _ => none


theorem assertion_item_status (a : Assertion) :
    (Assertion.toJson a).item "status" = .ok (Json.str a.status) := by
  obtain ⟨fn, st, fm⟩ := a
  cases fm <;> rfl

theorem assertion_getOpt_status (a : Assertion) :
    (Assertion.toJson a).getOpt "status" = .ok (some (Json.str a.status)) := by
  obtain ⟨fn, st, fm⟩ := a
  cases fm <;> rfl

theorem assertion_item_fullName (a : Assertion) :
    (Assertion.toJson a).item "fullName" = .ok (Json.str a.fullName) := by
  obtain ⟨fn, st, fm⟩ := a
  cases fm <;> rfl

theorem assertion_getOpt_msgs (a : Assertion) :
    (Assertion.toJson a).getOpt "failureMessages" =
      .ok (match a.failureMessages with
           | none => none
           | some ms => some (Json.arr (ms.map Json.str))) := by
  obtain ⟨fn, st, fm⟩ := a
  cases fm <;> rfl

theorem suite_item_name (s : Suite) :
    (Suite.toJson s).item "name" = .ok (Json.str s.name) := rfl

theorem suite_item_status (s : Suite) :
    (Suite.toJson s).item "status" = .ok (Json.str s.status) := rfl

theorem suite_getOpt_status (s : Suite) :
    (Suite.toJson s).getOpt "status" = .ok (some (Json.str s.status)) := rfl

theorem suite_item_ars (s : Suite) :
    (Suite.toJson s).item "assertionResults" =
      .ok (Json.arr (s.assertionResults.map Assertion.toJson)) := rfl

theorem suite_getOpt_ars (s : Suite) :
    (Suite.toJson s).getOpt "assertionResults" =
      .ok (some (Json.arr (s.assertionResults.map Assertion.toJson))) := rfl

theorem report_item_numTotalTests (r : Report) :
    (Report.toJson r).item "numTotalTests" =
      .ok (Json.num r.numTotalTests) := rfl

theorem report_item_numPassedTests (r : Report) :
    (Report.toJson r).item "numPassedTests" =
      .ok (Json.num r.numPassedTests) := rfl

theorem report_item_numFailedTests (r : Report) :
    (Report.toJson r).item "numFailedTests" =
      .ok (Json.num r.numFailedTests) := rfl

theorem report_item_numTotalTestSuites (r : Report) :
    (Report.toJson r).item "numTotalTestSuites" =
      .ok (Json.num r.numTotalTestSuites) := rfl

theorem report_item_numPassedTestSuites (r : Report) :
    (Report.toJson r).item "numPassedTestSuites" =
      .ok (Json.num r.numPassedTestSuites) := rfl

theorem report_item_numFailedTestSuites (r : Report) :
    (Report.toJson r).item "numFailedTestSuites" =
      .ok (Json.num r.numFailedTestSuites) := rfl

theorem report_item_numPendingTestSuites (r : Report) :
    (Report.toJson r).item "numPendingTestSuites" =
      .ok (Json.num r.numPendingTestSuites) := rfl

theorem report_item_numPendingTests (r : Report) :
    (Report.toJson r).item "numPendingTests" =
      .ok (Json.num r.numPendingTests) := rfl

theorem report_item_testResults (r : Report) :
    (Report.toJson r).item "testResults" =
      .ok (Json.arr (r.testResults.map Suite.toJson)) := rfl

theorem report_getOpt_testResults (r : Report) :
    (Report.toJson r).getOpt "testResults" =
      .ok (some (Json.arr (r.testResults.map Suite.toJson))) := rfl

theorem allStrs_mapStr (ms : List String) :
    allStrs (ms.map Json.str) = .ok ms := by
  induction ms with
  | nil => rfl
  | cons m rest ih => simp [allStrs, ih]

theorem filterFailed_encoded (xs : List Assertion) :
    filterFailed (xs.map Assertion.toJson) =
      .ok ((xs.filter (fun a => a.status == "failed")).map
            Assertion.toJson) := by
  induction xs with
  | nil => rfl
  | cons a rest ih =>
    simp only [List.map_cons, filterFailed, assertion_getOpt_status, ih]
    cases h : a.status == "failed" <;>
      simp [optIsStr, isStr, h, List.filter_cons]

theorem firstFailureMsg_encoded (a : Assertion) :
    firstFailureMsg (Assertion.toJson a) = .ok (specFirstMsg a) := by
  obtain ⟨fn, st, fm⟩ := a
  rcases fm with _ | ms
  · rfl
  · rcases ms with _ | ⟨m, ms⟩ <;> rfl

theorem checkSuiteLines_encoded (ss : List Suite) :
    checkSuiteLines (ss.map Suite.toJson) = (checkSuitesSpec ss, none) := by
  induction ss with
  | nil => rfl
  | cons s rest ih =>
    simp only [List.map_cons, checkSuiteLines, suite_getOpt_status, pbind]
    cases h : s.status == "failed"
    · simp [optIsStr, isStr, h, ih, checkSuitesSpec]
    · simp [optIsStr, isStr, h, suite_getOpt_ars, pyIter,
        filterFailed_encoded, suite_item_name, pout, pbind, ih,
        checkSuitesSpec, pyStr, failedOf]

theorem intercalate_nl_nil : String.intercalate "\n" [] = "" := rfl

theorem failedAssertionLines_encoded (xs : List Assertion) (k : POut) :
    failedAssertionLines (xs.map Assertion.toJson) k =
      (assertionDetailLines xs ++ k.1, k.2) := by
  induction xs with
  | nil => rfl
  | cons a rest ih =>
    simp [failedAssertionLines, firstFailureMsg_encoded,
      assertion_item_fullName, pbind, pout, ih, assertionDetailLines, pyStr]

theorem failedDetailsLoop_encoded (ss : List Suite) :
    failedDetailsLoop (ss.map Suite.toJson) = (detailsSpecLines ss, none) := by
  induction ss with
  | nil => rfl
  | cons s rest ih =>
    simp only [List.map_cons, failedDetailsLoop, suite_getOpt_ars, pbind,
      Option.getD, pyIter, filterFailed_encoded]
    cases h : failedOf s with
    | nil =>
      simp only [failedOf] at h
      simp [h, ih, detailsSpecLines, failedOf]
    | cons a fs =>
      simp only [failedOf] at h
      have hl := failedAssertionLines_encoded (a :: fs)
        (detailsSpecLines rest, none)
      simp only [List.map_cons] at hl
      simp [h, ih, detailsSpecLines, failedOf, suite_item_name, pyAddStr,
        pbind, pout, hl]

theorem collectAssertionFailures_encoded (nm : Json) (xs : List Assertion) :
    collectAssertionFailures nm (xs.map Assertion.toJson) =
      .ok ((xs.filter (fun a => a.status == "failed")).map (fun a =>
        { suite := nm, fullName := Json.str a.fullName,
          message := specJoinedMsg a })) := by
  induction xs with
  | nil => rfl
  | cons a rest ih =>
    simp only [List.map_cons, collectAssertionFailures,
      assertion_item_status]
    cases h : a.status == "failed"
    · simp [isStr, h, ih, List.filter_cons]
    · simp only [isStr, h, if_pos, assertion_getOpt_msgs]
      cases hm : a.failureMessages with
      | none =>
        simp [joinNewline, allStrs, assertion_item_fullName, ih,
          List.filter_cons, h, specJoinedMsg, hm, intercalate_nl_nil]
      | some ms =>
        simp [joinNewline, allStrs_mapStr, assertion_item_fullName, ih,
          List.filter_cons, h, specJoinedMsg, hm]

theorem collectFailures_encoded (ss : List Suite) :
    collectFailures (ss.map Suite.toJson) = .ok (specVFailures ss) := by
  induction ss with
  | nil => rfl
  | cons s rest ih =>
    simp [collectFailures, suite_item_name, suite_item_ars, pyIter,
      collectAssertionFailures_encoded, ih, specVFailures, failedOf]

theorem vitestE2eLoop_encoded (ss : List Suite) :
    vitestE2eLoop (ss.map Suite.toJson) =
      (match ss.find? (fun s =>
          pyInStr "e2e-quality-orchestration.test.ts" s.name) with
       | some s => ["   " ++ s.name ++ " " ++ s.status]
       | none => [], none) := by
  induction ss with
  | nil => rfl
  | cons s rest ih =>
    simp only [List.map_cons, vitestE2eLoop, suite_item_name, pbind,
      pyInJson]
    cases h : pyInStr "e2e-quality-orchestration.test.ts" s.name
    · simp [h, ih, List.find?]
    · simp [h, suite_item_status, pbind, pout, pdone, pyStr, List.find?]

theorem vitestFailuresLines_spec (ss : List Suite) :
    vitestFailuresLines (specVFailures ss) =
      ((specVFailures ss).map (fun f =>
        "- " ++ pyStr f.fullName ++ ": "
          ++ (if f.message == "" then "No message"
              else firstLine f.message)), none) := by
  induction ss with
  | nil => rfl
  | cons s rest ih =>
    simp only [specVFailures]
    generalize (failedOf s).map _ = fs
    induction fs with
    | nil => simpa using ih
    | cons f fs2 ih2 =>
      simp [vitestFailuresLines, pout, ih2]

theorem checkFullLogic_encoded (r : Report) :
    checkFullLogic (Report.toJson r) =
      (checkTotalsLine r :: checkSuitesSpec r.testResults, none) := by
  simp [checkFullLogic, report_item_numTotalTests, report_item_numPassedTests,
    report_item_numFailedTests, report_item_numFailedTestSuites,
    report_item_testResults, pbind, pout, pyIter, checkSuiteLines_encoded,
    pyStr, pyRepr, checkTotalsLine]

theorem failedDetailsLogic_encoded (r : Report) :
    failedDetailsLogic (Report.toJson r) =
      (detailsSpecLines r.testResults, none) := by
  simp [failedDetailsLogic, report_item_testResults, pbind, pyIter,
    failedDetailsLoop_encoded]

theorem vitestSummaryLogic_encoded (r : Report) :
    vitestSummaryLogic (Report.toJson r) = (vitestSpecLines r, none) := by
  simp [vitestSummaryLogic, report_item_numTotalTestSuites,
    report_item_numPassedTestSuites, report_item_numFailedTestSuites,
    report_item_numPendingTestSuites, report_item_numTotalTests,
    report_item_numPassedTests, report_item_numFailedTests,
    report_item_numPendingTests, report_getOpt_testResults, pbind, pout,
    pthen, pyIter, collectFailures_encoded, vitestE2eLoop_encoded,
    vitestFailuresLines_spec, vitestSpecLines, vitestTotals1, vitestTotals2,
    e2eSpecLines, failuresSpecLines, pyStr, pyRepr]

theorem specVFailures_length (ss : List Suite) :
    (specVFailures ss).length = sumFailedAssertions ss := by
  induction ss with
  | nil => rfl
  | cons s rest ih => simp [specVFailures, sumFailedAssertions, ih, failedOf]

theorem startsWithL_self (p r : List Char) : startsWithL p (p ++ r) = true := by
  induction p with
  | nil => rfl
  | cons c cs ih => simp [startsWithL, ih]

theorem subSearch_complete (a sub b : List Char) :
    subSearch sub (a ++ (sub ++ b)) = true := by
  induction a with
  | nil =>
    simp only [List.nil_append]
    cases sub with
    | nil =>
      cases b with
      | nil => rfl
      | cons c cs => simp [subSearch, startsWithL]
    | cons c cs =>
      have := startsWithL_self (c :: cs) b
      simp only [List.cons_append] at this
      simp [subSearch, this]
  | cons x a2 ih => simp [subSearch, ih]

theorem strData_append (a b : String) : (a ++ b).data = a.data ++ b.data := rfl

theorem pyInStr_decomp (sub pre post s : String)
    (h : s.data = pre.data ++ (sub.data ++ post.data)) :
    pyInStr sub s = true := by
  unfold pyInStr
  rw [h]
  exact subSearch_complete pre.data sub.data post.data

theorem readFailure_serialize (f : VFailure) :
    readFailure (serializeFailure f) = some f := by
  obtain ⟨s, fn, m⟩ := f
  rfl

theorem readFailureAux_serialize (fs : List VFailure) :
    readFailureAux (fs.map serializeFailure) = some fs := by
  induction fs with
  | nil => rfl
  | cons f rest ih => simp [readFailureAux, readFailure_serialize, ih]

theorem runOn_benign (path : String) (core : List Nat → POut) (w : World) :
    (runOn path core w).1.all effectBenign = true := by
  unfold runOn
  cases w.files path with
  | none => rfl
  | some bs => simp [effectBenign, List.all_map, Function.comp]

theorem runOn_congr (path : String) (core : List Nat → POut) (w1 w2 : World)
    (h : w1.files path = w2.files path) :
    runOn path core w1 = runOn path core w2 := by
  unfold runOn
  rw [h]

theorem detailsSpecLines_append (xs ys : List Suite) :
    detailsSpecLines (xs ++ ys) = detailsSpecLines xs ++ detailsSpecLines ys := by
  induction xs with
  | nil => rfl
  | cons s rest ih => simp [detailsSpecLines, ih]

/-- C1 (counterexample): the byte content `c1Bytes` is not valid UTF-8, yet
check_full.py (which decodes utf-8 with errors ignored) raises no error at
all and prints its totals line — loading does NOT fail with a DecodeError
on an encoding mismatch. -/
theorem checkFull_accepts_invalid_utf8 :
    utf8Decode? c1Bytes = none ∧
    checkFullCore c1Bytes =
      (["total=1 passed=1 failed=0 failedSuites=0"], none) :=
  ⟨rfl, rfl⟩

/-- C1 (amended): only vitest-report-summary.py, which decodes utf-8-sig
strictly, fails with a DecodeError whenever the byte content does not match
its assumed encoding; the scripts that decode with errors ignored can
instead silently produce output from bytes that are not valid UTF-8. -/
theorem decode_error_vitest_only :
    (∀ bs : List Nat, utf8SigDecode? bs = none →
      vitestSummaryCore bs = ([], some PyErr.unicodeDecodeError)) ∧
    (utf8Decode? c1Bytes = none ∧ (checkFullCore c1Bytes).2 = none ∧
      (checkFullCore c1Bytes).1 ≠ []) := by
  constructor
  · intro bs h
    unfold vitestSummaryCore
    rw [h]
  · exact ⟨rfl, rfl, by decide⟩

/-- Witness for the amended C1 theorem at the concrete input `[255]`. -/
theorem decode_error_vitest_only_witness :
    utf8SigDecode? [255] = none ∧
    vitestSummaryCore [255] = ([], some PyErr.unicodeDecodeError) :=
  ⟨rfl, decode_error_vitest_only.1 [255] rfl⟩

/-- C2: the FAILURE COUNT printed by vitest-report-summary.py (the third
line of its output) equals the sum over all suites of the number of
assertions with failed status, for every well-formed report, regardless of
each suite's status and of the document's numFailedTests counter; and the
run raises nothing. -/
theorem failure_count_recomputed (r : Report) :
    (vitestSummaryLogic (Report.toJson r)).1[2]? =
      some ("FAILURE COUNT "
        ++ toString (sumFailedAssertions r.testResults)) ∧
    (vitestSummaryLogic (Report.toJson r)).2 = none := by
  rw [vitestSummaryLogic_encoded]
  simp [vitestSpecLines, specVFailures_length]

/-- C3 (counterexample): a report whose suite lacks the required
assertionResults field does NOT abort failed_details.py or check_full.py
with a SchemaError — both scripts treat the missing field as an empty list
and complete without error. -/
theorem missing_field_no_abort :
    failedDetailsLogic c3DetailsDoc = ([], none) ∧
    checkFullLogic c3CheckDoc =
      (["total=2 passed=1 failed=1 failedSuites=1", "suite-a :: 0"],
       none) :=
  ⟨rfl, rfl⟩

/-- C3 (amended): fields read by direct subscript abort with a SchemaError
(KeyError) when absent — for example numTotalTests at top level in
check_full.py, or assertionResults per suite in vitest-report-summary.py —
while fields read via .get with a default (assertionResults in
check_full.py and failed_details.py, testResults in
vitest-report-summary.py) are silently defaulted. -/
theorem schema_error_on_subscripted_fields :
    (∀ kvs : List (String × Json), assocLast kvs "numTotalTests" = none →
      checkFullLogic (Json.obj kvs) =
        ([], some (PyErr.keyError "numTotalTests"))) ∧
    vitestSummaryLogic c3VitestDoc =
      (["TOTAL SUITES 1 PASS 0 FAIL 1 SKIPPED 0",
        "TOTAL TESTS 2 PASS 1 FAIL 1 SKIPPED 0"],
       some (PyErr.keyError "assertionResults")) := by
  constructor
  · intro kvs h
    simp [checkFullLogic, Json.item, h, pbind]
  · rfl

/-- Witness for the amended C3 theorem at the empty object. -/
theorem schema_error_on_subscripted_fields_witness :
    assocLast [] "numTotalTests" = none ∧
    checkFullLogic (Json.obj []) =
      ([], some (PyErr.keyError "numTotalTests")) :=
  ⟨rfl, schema_error_on_subscripted_fields.1 [] rfl⟩

/-- C4: for every well-formed report, the failure-details output of
failed_details.py is exactly the specified listing: for each suite with at
least one failed assertion, the suite name, then for each failed assertion
its fullName and the first line of its first recorded failure message —
the empty string when it has none — and the run raises nothing. -/
theorem failed_details_matches_spec (r : Report) :
    failedDetailsLogic (Report.toJson r) =
      (detailsSpecLines r.testResults, none) :=
  failedDetailsLogic_encoded r

/-- C5: the named-suite lookup of vitest-report-summary.py reports exactly
the first suite (in order) whose name contains the e2e substring, and
nothing when no suite name contains it; on the spec's one-suite example
report the lookup reports status passed. -/
theorem e2e_lookup_first_match :
    (∀ ss : List Suite, vitestE2eLoop (ss.map Suite.toJson) =
      (match ss.find? (fun s =>
          pyInStr "e2e-quality-orchestration.test.ts" s.name) with
       | some s => ["   " ++ s.name ++ " " ++ s.status]
       | none => [], none)) ∧
    vitestSummaryLogic (Report.toJson e2eSampleReport) =
      (["TOTAL SUITES 1 PASS 1 FAIL 0 SKIPPED 0",
        "TOTAL TESTS 0 PASS 0 FAIL 0 SKIPPED 0",
        "FAILURE COUNT 0", "E2E FILE STATUS:",
        "   a/b/e2e-quality-orchestration.test.ts passed",
        "\nFAILURES:"], none) :=
  ⟨vitestE2eLoop_encoded, rfl⟩

/-- C6 (counterexample): on a report with numTotalTests 3 and
numFailedTests 1, vitest-report-summary.py prints totals lines, but no
line of its output contains the substring total=3 or failed=1 — so it is
not true that every script that prints totals emits those substrings. -/
theorem vitest_totals_lack_substrings :
    (vitestSummaryLogic (Report.toJson c6Report)).1 =
      ["TOTAL SUITES 1 PASS 0 FAIL 1 SKIPPED 0",
       "TOTAL TESTS 3 PASS 2 FAIL 1 SKIPPED 0", "FAILURE COUNT 0",
       "E2E FILE STATUS:", "\nFAILURES:"] ∧
    ((vitestSummaryLogic (Report.toJson c6Report)).1.all (fun l =>
      !(pyInStr "total=3" l) && !(pyInStr "failed=1" l))) = true :=
  ⟨rfl, rfl⟩

/-- C6 (amended): the totals line of check_full.py contains the literal
substrings total=T and failed=F for every report with numTotalTests T and
numFailedTests F; vitest-report-summary.py formats its totals lines
differently. -/
theorem check_full_totals_substrings (r : Report) :
    ∃ l rest, (checkFullLogic (Report.toJson r)).1 = l :: rest ∧
      pyInStr ("total=" ++ toString r.numTotalTests) l = true ∧
      pyInStr ("failed=" ++ toString r.numFailedTests) l = true := by
  refine ⟨checkTotalsLine r, checkSuitesSpec r.testResults, ?_, ?_, ?_⟩
  · rw [checkFullLogic_encoded]
  · apply pyInStr_decomp _ ""
      (" passed=" ++ toString r.numPassedTests ++ " failed="
        ++ toString r.numFailedTests ++ " failedSuites="
        ++ toString r.numFailedTestSuites)
    simp [checkTotalsLine, strData_append, List.append_assoc,
      (show ("" : String).data = [] from rfl)]
  · apply pyInStr_decomp _
      ("total=" ++ toString r.numTotalTests ++ " passed="
        ++ toString r.numPassedTests ++ " ")
      (" failedSuites=" ++ toString r.numFailedTestSuites)
    simp [checkTotalsLine, strData_append, List.append_assoc,
      (show (" failed=" : String).data =
        (" " : String).data ++ ("failed=" : String).data from rfl),
      (show (" passed=" : String).data =
        (" " : String).data ++ ("passed=" : String).data from rfl)]

/-- C7: a suite with zero failed assertions contributes nothing to the
failure-details output: deleting it from a well-formed report leaves the
output of failed_details.py unchanged. -/
theorem zero_failed_suite_absent (r : Report) (pre post : List Suite)
    (s : Suite) (h : failedOf s = []) :
    failedDetailsLogic
        (Report.toJson { r with testResults := pre ++ s :: post }) =
      failedDetailsLogic
        (Report.toJson { r with testResults := pre ++ post }) := by
  rw [failedDetailsLogic_encoded, failedDetailsLogic_encoded]
  have : detailsSpecLines (pre ++ s :: post) =
      detailsSpecLines (pre ++ post) := by
    rw [detailsSpecLines_append, detailsSpecLines_append]
    simp [detailsSpecLines, h]
  rw [this]

/-- Witness for C7 at a concrete passing suite. -/
theorem zero_failed_suite_absent_witness :
    failedOf { name := "x", status := "passed",
               assertionResults := [] } = [] ∧
    failedDetailsLogic (Report.toJson { c6Report with
        testResults := [] ++ ({ name := "x", status := "passed",
                                assertionResults := [] } : Suite) :: [] }) =
      failedDetailsLogic (Report.toJson { c6Report with
        testResults := [] ++ [] }) :=
  ⟨rfl, zero_failed_suite_absent c6Report [] []
    { name := "x", status := "passed", assertionResults := [] } rfl⟩

/-- C8: serializing the failure list vitest-report-summary.py extracts
from a well-formed report back to a JSON document and reloading it yields
the same list — suite name, full name and message (hence its first line)
are preserved for every failed assertion.  The serialization itself is
modelled from the spec, since no script re-serializes the list. -/
theorem failure_list_roundtrip (r : Report) :
    collectFailures (r.testResults.map Suite.toJson) =
      .ok (specVFailures r.testResults) ∧
    readFailureList (serializeFailureList (specVFailures r.testResults)) =
      some (specVFailures r.testResults) :=
  ⟨collectFailures_encoded r.testResults,
   readFailureAux_serialize (specVFailures r.testResults)⟩

/-- C9: no script performs any effect beyond reading its input file and
writing to standard output — in particular, no run of any of the four
scripts ever performs a file-system write, in any world. -/
theorem no_write_effects (w : World) :
    (runCheckFull w).1.all effectBenign = true ∧
    (runFailedDetails w).1.all effectBenign = true ∧
    (runTempDecode w).1.all effectBenign = true ∧
    (runVitestSummary w).1.all effectBenign = true :=
  ⟨runOn_benign _ _ w, runOn_benign _ _ w, runOn_benign _ _ w,
   runOn_benign _ _ w⟩

/-- C10: each script's observable run (effects, hence printed output, and
outcome) is a function of its input file's byte content alone: two worlds
agreeing on those bytes — whatever their environments, clocks or other
files — produce identical runs. -/
theorem deterministic_output (w1 w2 : World) :
    (w1.files "vitest-results.json" = w2.files "vitest-results.json" →
      runCheckFull w1 = runCheckFull w2 ∧
      runFailedDetails w1 = runFailedDetails w2 ∧
      runTempDecode w1 = runTempDecode w2) ∧
    (w1.files "vitest-results-clean.json" =
        w2.files "vitest-results-clean.json" →
      runVitestSummary w1 = runVitestSummary w2) :=
  ⟨fun h => ⟨runOn_congr _ _ _ _ h, runOn_congr _ _ _ _ h,
             runOn_congr _ _ _ _ h⟩,
   fun h => runOn_congr _ _ _ _ h⟩

/-- Witness for C10: two worlds with the same (absent) input files but
different environments and clocks give identical runs. -/
theorem deterministic_output_witness :
    (runCheckFull { files := fun _ => none, env := fun _ => none,
                    time := 0 } =
      runCheckFull { files := fun _ => none, env := fun v => some v,
                     time := 42 }) ∧
    (runVitestSummary { files := fun _ => none, env := fun _ => none,
                        time := 0 } =
      runVitestSummary { files := fun _ => none, env := fun v => some v,
                         time := 42 }) :=
  ⟨((deterministic_output
      { files := fun _ => none, env := fun _ => none, time := 0 }
      { files := fun _ => none, env := fun v => some v,
        time := 42 }).1 rfl).1,
   (deterministic_output
      { files := fun _ => none, env := fun _ => none, time := 0 }
      { files := fun _ => none, env := fun v => some v,
        time := 42 }).2 rfl⟩
